import Mathlib

/-!  Verification of the Huobi USDT cross-margined perpetual-swap REST
     client (huobi_usdt_swap_cross_api.py): the request signer
     (generate_signature), the dispatcher (request) with its response
     normalization, and the endpoint parameter marshaling.

     External standard-library primitives (UTF-8 encoding, urlencode,
     base64, str.join, dict semantics, JSON decoding) are modelled as
     executable Lean functions; the HMAC-SHA256 digest primitive is taken
     as a function argument, since the module only composes it.  -/

namespace HuobiSwap

/-- JSON-like Python value: null, booleans, integers, strings, arrays and
    objects.  The payloads this module exchanges use no floats, so numbers
    are integers. -/
inductive Json where
  | null
  | bool (b : Bool)
  | num (n : Int)
  | str (s : String)
  | arr (elems : List Json)
  | obj (kvs : List (String × Json))

/-- Python dict with string keys and string values, kept in insertion
    order as an association list. -/
abbrev PyDict := List (String × String)

/-- First value stored under key k, if any (dicts keep keys unique, so the
    first match is the only match). -/
def lookupKey {α : Type} : List (String × α) → String → Option α
  | [], _ => none
  | (k2, v) :: rest, k => if k2 = k then some v else lookupKey rest k

/-- Replace every entry stored under key k by the value v, keeping its
    position. -/
def replaceKey {α : Type} : List (String × α) → String → α → List (String × α)
  | [], _, _ => []
  | (k2, u) :: rest, k, v =>
    if k2 = k then (k, v) :: replaceKey rest k v else (k2, u) :: replaceKey rest k v

/-- Model of the Python dict item assignment d[k] = v: replaces the value
    in place when the key is present, appends a new entry otherwise. -/
def pySet {α : Type} (d : List (String × α)) (k : String) (v : α) : List (String × α) :=
  match lookupKey d k with
  | some _ => replaceKey d k v
  | none => d ++ [(k, v)]

/-- Model of Python dict.update with a literal dict: one item assignment
    per pair, in order. -/
def pyUpdate {α : Type} (d : List (String × α)) (kvs : List (String × α)) : List (String × α) :=
  kvs.foldl (fun acc p => pySet acc p.1 p.2) d

/-- UTF-8 encoding of a single character, as a byte list (model of the
    encoding performed by str.encode). -/
def utf8Char (c : Char) : List Nat :=
  let n := c.toNat
  if n < 128 then [n]
  else if n < 2048 then [192 + n / 64, 128 + n % 64]
  else if n < 65536 then [224 + n / 4096, 128 + n / 64 % 64, 128 + n % 64]
  else [240 + n / 262144, 128 + n / 4096 % 64, 128 + n / 64 % 64, 128 + n % 64]

/-- UTF-8 encoding of a string (model of str.encode with encoding UTF8). -/
def utf8Encode (s : String) : List Nat :=
  (s.data.map utf8Char).flatten

/-- Uppercase hexadecimal digit for a value below 16. -/
def hexUpper (n : Nat) : Char :=
  if n < 10 then Char.ofNat (48 + n) else Char.ofNat (55 + n)

/-- Bytes that urllib quote_plus keeps verbatim: ALPHA, DIGIT, underscore,
    dot, dash, tilde. -/
def quoteSafe (b : Nat) : Bool :=
  decide ((48 ≤ b ∧ b ≤ 57) ∨ (65 ≤ b ∧ b ≤ 90) ∨ (97 ≤ b ∧ b ≤ 122)
    ∨ b = 95 ∨ b = 46 ∨ b = 45 ∨ b = 126)

/-- Model of urllib.parse.quote_plus with the default empty safe string:
    space becomes a plus sign, safe bytes stay, every other UTF-8 byte is
    percent-encoded with uppercase hex digits. -/
def quotePlus (s : String) : String :=
  String.join ((utf8Encode s).map (fun b =>
    if b = 32 then "+"
    else if quoteSafe b then String.mk [Char.ofNat b]
    else String.mk ['%', hexUpper (b / 16), hexUpper (b % 16)]))

/-- Model of the Python str.join method: sep.join(xs). -/
def pyJoin (sep : String) : List String → String
  | [] => ""
  | a :: rest => rest.foldl (fun acc x => acc ++ sep ++ x) a

/-- Model of urllib.parse.urlencode on a list of key-value pairs: each key
    and value quoted, joined as k=v with ampersands. -/
def urlencode (pairs : List (String × String)) : String :=
  pyJoin "&" (pairs.map (fun p => quotePlus p.1 ++ "=" ++ quotePlus p.2))

/-- Ordering on dict entries by key, as used by sorted(params.items(),
    key=lambda d: d[0]): byte-wise lexicographic string comparison. -/
def keyLE (a b : String × String) : Prop := a.1 ≤ b.1

instance : DecidableRel keyLE := fun a b => inferInstanceAs (Decidable (a.1 ≤ b.1))

instance : IsTotal (String × String) keyLE := ⟨fun a b => le_total a.1 b.1⟩

instance : IsTrans (String × String) keyLE := ⟨fun _ _ _ h1 h2 => le_trans h1 h2⟩

/-- Strict version of the key ordering, used to identify sorted lists. -/
def keyLT (a b : String × String) : Prop := a.1 < b.1

instance : IsAntisymm (String × String) keyLT := ⟨fun _ _ h1 h2 => (lt_asymm h1 h2).elim⟩

/-- Model of sorted(params.items(), key=lambda d: d[0], reverse=False). -/
def sortParams (params : PyDict) : PyDict :=
  List.insertionSort keyLE params

/-- Lowercasing of a string (ASCII, which covers hostnames). -/
def lowerStr (s : String) : String := String.mk (s.data.map Char.toLower)

/-- Uppercasing of a string (used only to state the spec reading of the
    payload, which claims the method is uppercased). -/
def upperStr (s : String) : String := String.mk (s.data.map Char.toUpper)

/-- Characters after the first scheme separator "://". -/
def dropScheme : List Char → List Char
  | ':' :: '/' :: '/' :: rest => rest
  | _ :: rest => dropScheme rest
  | [] => []

/-- Split a character list at every occurrence of sep. -/
def splitOnChar (sep : Char) : List Char → List (List Char)
  | [] => [[]]
  | c :: rest =>
    let r := splitOnChar sep rest
    if c = sep then [] :: r
    else
      match r with
      | h :: t => (c :: h) :: t
      | [] => [[c]]

/-- Model of urllib.parse.urlparse(url).hostname for the URLs this module
    sees: the authority component without userinfo or port, lowercased. -/
def urlHostname (url : String) : String :=
  let netloc := (dropScheme url.data).takeWhile
    (fun c => !(c == '/') && !(c == '?') && !(c == '#'))
  let afterUser := ((splitOnChar '@' netloc).getLast?).getD []
  lowerStr (String.mk (afterUser.takeWhile (fun c => !(c == ':'))))

/-- Whether a path argument is a fully qualified URL (source lines 703 and
    741: startswith http:// or https://). -/
def isFullUrl (s : String) : Bool :=
  s.startsWith "http://" || s.startsWith "https://"

/-- Client configuration captured at construction (source lines 37-41):
    host, access key, secret key; never reassigned by any method. -/
structure HuobiClient where
  host : String
  access_key : String
  secret_key : String

/-- Host line of the signing payload (source lines 741-745): hostname of
    the request path when it is a full URL, of the configured host
    otherwise, lowercased. -/
def signHost (c : HuobiClient) (request_path : String) : String :=
  if isFullUrl request_path then lowerStr (urlHostname request_path)
  else lowerStr (urlHostname c.host)

/-- Canonical path line of the signing payload (source line 743): for a
    full URL, the slash-delimited components from the fourth onward,
    rejoined and prefixed with a slash; otherwise the path as given. -/
def signPath (request_path : String) : String :=
  if isFullUrl request_path then "/" ++ pyJoin "/" ((request_path.splitOn "/").drop 3)
  else request_path

/-- Character of the standard base64 alphabet for a 6-bit value. -/
def b64Char (n : Nat) : Char :=
  if n < 26 then Char.ofNat (65 + n)
  else if n < 52 then Char.ofNat (97 + (n - 26))
  else if n < 62 then Char.ofNat (48 + (n - 52))
  else if n = 62 then '+' else '/'

/-- Model of base64.b64encode on a byte list, decoded back to a string. -/
def b64encode : List Nat → String
  | [] => ""
  | [a] => String.mk [b64Char (a / 4), b64Char (a % 4 * 16)] ++ "=="
  | [a, b] =>
    String.mk [b64Char (a / 4), b64Char (a % 4 * 16 + b / 16), b64Char (b % 16 * 4)] ++ "="
  | a :: b :: c2 :: rest =>
    String.mk [b64Char (a / 4), b64Char (a % 4 * 16 + b / 16),
      b64Char (b % 16 * 4 + c2 / 64), b64Char (c2 % 64)] ++ b64encode rest

/-- The four-line signing payload exactly as the source builds it (lines
    746-749): method as given, host, canonical path, form-encoded sorted
    query string, joined by newlines. -/
def signPayload (c : HuobiClient) (method : String) (params : PyDict)
    (request_path : String) : String :=
  pyJoin "\n" [method, signHost c request_path, signPath request_path,
    urlencode (sortParams params)]

/-- Embedding of generate_signature (source lines 740-755).  The
    HMAC-SHA256 digest primitive of the hmac and hashlib standard
    libraries is passed in as hmacSha256; the module base64-encodes the
    digest it returns and decodes the result to a string. -/
def generate_signature (c : HuobiClient) (hmacSha256 : List Nat → List Nat → List Nat)
    (method : String) (params : PyDict) (request_path : String) : String :=
  let host_url := signHost c request_path
  let req_path := signPath request_path
  let encode_params := urlencode (sortParams params)
  let payload := pyJoin "\n" [method, host_url, req_path, encode_params]
  let digest := hmacSha256 (utf8Encode c.secret_key) (utf8Encode payload)
  b64encode digest

/-- Two-digit zero-padded decimal rendering, as characters (the strftime
    directives m, d, H, M, S for in-range values). -/
def pad2l (n : Nat) : List Char :=
  [Nat.digitChar (n / 10 % 10), Nat.digitChar (n % 10)]

/-- Four-digit zero-padded decimal rendering, as characters (the strftime
    directive Y for the years utcnow produces). -/
def pad4l (n : Nat) : List Char :=
  [Nat.digitChar (n / 1000 % 10), Nat.digitChar (n / 100 % 10),
   Nat.digitChar (n / 10 % 10), Nat.digitChar (n % 10)]

/-- A UTC wall-clock instant as datetime.datetime.utcnow() yields it. -/
structure UtcTime where
  year : Nat
  month : Nat
  day : Nat
  hour : Nat
  minute : Nat
  second : Nat

/-- Model of strftime with the format used at source line 709: four-digit
    year, dash, two-digit month, dash, two-digit day, the letter T, then
    colon-separated two-digit hour, minute and second. -/
def strftimeTs (t : UtcTime) : String :=
  String.mk (pad4l t.year ++ '-' :: pad2l t.month ++ '-' :: pad2l t.day
    ++ 'T' :: pad2l t.hour ++ ':' :: pad2l t.minute ++ ':' :: pad2l t.second)

/-- The auth branch of request (source lines 708-716): merge the access
    key, signature method, signature version and timestamp into params in
    that order, then compute the signature over the merged mapping, the
    method and the original uri, and store it under Signature. -/
def authParams (c : HuobiClient) (hb : List Nat → List Nat → List Nat) (ts : String)
    (method uri : String) (params : PyDict) : PyDict :=
  let p := pyUpdate params
    [("AccessKeyId", c.access_key), ("SignatureMethod", "HmacSHA256"),
     ("SignatureVersion", "2"), ("Timestamp", ts)]
  pySet p "Signature" (generate_signature c hb method p uri)

/-- Characters of a URL up to and including the scheme separator. -/
def takeScheme : List Char → List Char
  | ':' :: '/' :: '/' :: _ => [':', '/', '/']
  | c :: rest => c :: takeScheme rest
  | [] => []

/-- Scheme and authority of a base URL. -/
def baseRoot (url : String) : String :=
  String.mk (takeScheme url.data)
    ++ String.mk ((dropScheme url.data).takeWhile (fun c => !(c == '/')))

/-- Model of urllib.parse.urljoin restricted to the shapes this module
    produces: every relative uri handed to request begins with a slash, so
    the join keeps the scheme and authority of the base and replaces its
    whole path. -/
def urljoin (base uri : String) : String := baseRoot base ++ uri

/-- The call handed to the external transport AsyncHttpRequests.fetch,
    which the spec treats as an external collaborator. -/
structure OutboundCall where
  fetchMethod : String
  url : String
  params : Option PyDict
  data : Option (List (String × Json))
  headers : PyDict
  timeoutSecs : Nat

/-- Embedding of the outbound half of request (source lines 703-729): URL
    resolution, the auth branch, header assembly, and the dispatch to the
    transport, which receives the literal method GET for a GET argument
    and the literal method POST for every other method argument.  The
    fixed client identifier string USER_AGENT of alpha.const is passed in
    as userAgent. -/
def requestOutbound (c : HuobiClient) (hb : List Nat → List Nat → List Nat) (t : UtcTime)
    (userAgent : String) (method uri : String) (params : Option PyDict)
    (body : Option (List (String × Json))) (headers : Option PyDict)
    (auth : Bool) : OutboundCall :=
  let url := if isFullUrl uri then uri else urljoin c.host uri
  let params := if auth then some (authParams c hb (strftimeTs t) method uri (params.getD []))
    else params
  let headers := headers.getD []
  if method = "GET" then
    { fetchMethod := "GET", url := url, params := params, data := none,
      headers := pyUpdate headers
        [("Content-type", "application/x-www-form-urlencoded"), ("User-Agent", userAgent)],
      timeoutSecs := 10 }
  else
    { fetchMethod := "POST", url := url, params := params, data := body,
      headers := pyUpdate headers
        [("Accept", "application/json"), ("Content-type", "application/json"),
         ("User-Agent", userAgent)],
      timeoutSecs := 10 }

/-- Read a dict cell of the store; an unallocated cell reads empty. -/
def storeGet : List PyDict → Nat → PyDict
  | [], _ => []
  | d :: _, 0 => d
  | _ :: rest, Nat.succ n => storeGet rest n

/-- Overwrite a dict cell of the store. -/
def storeSet : List PyDict → Nat → PyDict → List PyDict
  | [], _, _ => []
  | _ :: rest, 0, d => d :: rest
  | a :: rest, Nat.succ n, d => a :: storeSet rest n d

/-- Heap-level rendering of the auth branch, making the Python object
    semantics of source lines 708-716 explicit: dicts live in a store of
    numbered cells and the caller passes a reference.  The statement
    params = params if params else \x7b\x7d rebinds the local name to the
    given cell when that cell holds a non-empty dict and to a freshly
    allocated empty dict otherwise; the update and the signature
    assignment then mutate the bound cell.  The client record is returned
    unchanged: no method of the class assigns to its fields. -/
def requestAuthHeap (c : HuobiClient) (hb : List Nat → List Nat → List Nat) (ts : String)
    (method uri : String) (store : List PyDict) (paramsRef : Option Nat) :
    HuobiClient × List PyDict × Nat :=
  let alloc :=
    match paramsRef with
    | some r => if storeGet store r ≠ [] then (store, r) else (store ++ [[]], store.length)
    | none => (store ++ [[]], store.length)
  let store1 := alloc.1
  let r := alloc.2
  let d := storeGet store1 r
  (c, storeSet store1 r (authParams c hb ts method uri d), r)

/-- Python exception outcomes relevant to this module. -/
inductive PyExc where
  | jsonDecodeError (msg : String)
  | typeError (msg : String)
  | attributeError (msg : String)
  | nameError (x : String)

/-- JSON whitespace. -/
def isJsonWs (c : Char) : Bool := c == ' ' || c == '\t' || c == '\n' || c == '\r'

/-- Drop leading JSON whitespace. -/
def skipWs : List Char → List Char
  | c :: rest => if isJsonWs c then skipWs rest else c :: rest
  | [] => []

/-- String literal body: characters until the closing quote, with the
    basic escapes. -/
def pStrAux : List Char → List Char → Except String (String × List Char)
  | acc, '"' :: rest => .ok (String.mk acc.reverse, rest)
  | acc, '\\' :: c :: rest =>
    if c == '"' then pStrAux ('"' :: acc) rest
    else if c == '\\' then pStrAux ('\\' :: acc) rest
    else if c == '/' then pStrAux ('/' :: acc) rest
    else if c == 'n' then pStrAux ('\n' :: acc) rest
    else if c == 't' then pStrAux ('\t' :: acc) rest
    else if c == 'r' then pStrAux ('\r' :: acc) rest
    else .error "Invalid escape"
  | acc, c :: rest => pStrAux (c :: acc) rest
  | _, [] => .error "Unterminated string"

/-- Decimal digits to a number. -/
def digitsToNat (ds : List Char) : Nat :=
  ds.foldl (fun a c => a * 10 + (c.toNat - 48)) 0

mutual

/-- Recursive-descent JSON value, driven by fuel. -/
def pVal : Nat → List Char → Except String (Json × List Char)
  | 0, _ => .error "Expecting value"
  | Nat.succ fuel, cs =>
    match skipWs cs with
    | [] => .error "Expecting value"
    | c :: rest =>
      if c == 'n' then
        match rest with
        | 'u' :: 'l' :: 'l' :: r => .ok (.null, r)
        | _ => .error "Expecting value"
      else if c == 't' then
        match rest with
        | 'r' :: 'u' :: 'e' :: r => .ok (.bool true, r)
        | _ => .error "Expecting value"
      else if c == 'f' then
        match rest with
        | 'a' :: 'l' :: 's' :: 'e' :: r => .ok (.bool false, r)
        | _ => .error "Expecting value"
      else if c == '"' then
        match pStrAux [] rest with
        | .ok (s, r) => .ok (.str s, r)
        | .error m => .error m
      else if c == '-' then
        match rest.span (fun d => d.isDigit) with
        | ([], _) => .error "Expecting value"
        | (ds, r) => .ok (.num (- (digitsToNat ds : Int)), r)
      else if c.isDigit then
        match (c :: rest).span (fun d => d.isDigit) with
        | (ds, r) => .ok (.num (digitsToNat ds : Int), r)
      else if c == '[' then
        match skipWs rest with
        | ']' :: r => .ok (.arr [], r)
        | cs2 => pArrItems fuel cs2 []
      else if c == Char.ofNat 123 then
        match skipWs rest with
        | d :: r =>
          if d == Char.ofNat 125 then .ok (.obj [], r) else pObjItems fuel (d :: r) []
        | [] => .error "Unterminated object"
      else .error "Expecting value"

/-- Array items after the opening bracket. -/
def pArrItems : Nat → List Char → List Json → Except String (Json × List Char)
  | 0, _, _ => .error "Expecting value"
  | Nat.succ fuel, cs, acc =>
    match pVal fuel cs with
    | .error m => .error m
    | .ok (v, r) =>
      match skipWs r with
      | ',' :: r2 => pArrItems fuel r2 (acc ++ [v])
      | ']' :: r2 => .ok (.arr (acc ++ [v]), r2)
      | _ => .error "Expecting comma"

/-- Object members after the opening brace. -/
def pObjItems : Nat → List Char → List (String × Json) → Except String (Json × List Char)
  | 0, _, _ => .error "Expecting value"
  | Nat.succ fuel, cs, acc =>
    match skipWs cs with
    | '"' :: rest =>
      match pStrAux [] rest with
      | .error m => .error m
      | .ok (k, r) =>
        match skipWs r with
        | ':' :: r2 =>
          match pVal fuel (skipWs r2) with
          | .error m => .error m
          | .ok (v, r3) =>
            match skipWs r3 with
            | ',' :: r4 => pObjItems fuel r4 (acc ++ [(k, v)])
            | d :: r4 =>
              if d == Char.ofNat 125 then .ok (.obj (acc ++ [(k, v)]), r4)
              else .error "Expecting comma"
            | [] => .error "Unterminated object"
        | _ => .error "Expecting colon"
    | _ => .error "Expecting property name"

end

/-- Model of json.loads on the JSON subset this API exchanges (integral
    numbers, basic escapes).  Decode failures carry JSONDecodeError. -/
def json_loads (s : String) : Except PyExc Json :=
  match pVal (s.length + 1) s.data with
  | .error m => .error (.jsonDecodeError m)
  | .ok (j, rest) => if skipWs rest = [] then .ok j else .error (.jsonDecodeError "Extra data")

/-- The success slot handed back by the transport: absent, a raw string
    body, or an already decoded mapping. -/
inductive TransportBody where
  | pyNone
  | raw (s : String)
  | dict (kvs : List (String × Json))

/-- Python truthiness of a decoded value. -/
def jsonTruthy : Json → Bool
  | .null => false
  | .bool b => b
  | .num n => decide (n ≠ 0)
  | .str s => decide (s ≠ "")
  | .arr xs => !xs.isEmpty
  | .obj kvs => !kvs.isEmpty

/-- Truthiness of the error slot returned by the transport. -/
def errTruthy : Option Json → Bool
  | none => false
  | some e => jsonTruthy e

/-- Model of dict.get with default None. -/
def pyDictGet (kvs : List (String × Json)) (k : String) : Json :=
  (lookupKey kvs k).getD Json.null

/-- Python equality of a decoded value against a string literal: only an
    equal string compares equal. -/
def pyEqStr (j : Json) (s : String) : Bool :=
  match j with
  | .str t => t == s
  | _ => false

/-- Source lines 732-735: a mapping passes through, a string body goes
    through json.loads, an absent body makes loads raise TypeError. -/
def parseSuccess : TransportBody → Except PyExc Json
  | .dict kvs => .ok (.obj kvs)
  | .raw s => json_loads s
  | .pyNone => .error (.typeError "the JSON object must be str, bytes or bytearray, not NoneType")

/-- Source lines 736-738: result.get inspects the status field of a
    mapping, raising AttributeError on any non-mapping value; a status
    other than the literal string ok routes the payload to the error
    half. -/
def statusHalves : Json → Except PyExc (Option Json × Option Json)
  | .obj kvs =>
    if pyEqStr (pyDictGet kvs "status") "ok" then .ok (some (.obj kvs), none)
    else .ok (none, some (.obj kvs))
  | _ => .error (.attributeError "object has no attribute get")

/-- Embedding of the response normalization of request (source lines
    730-738): a truthy transport error comes back as the error half;
    otherwise the payload is parsed if needed and its status field decides
    which half carries it. -/
def normalizeResponse (success : TransportBody) (error : Option Json) :
    Except PyExc (Option Json × Option Json) :=
  if errTruthy error then .ok (none, error)
  else
    match parseSuccess success with
    | .error e => .error e
    | .ok result => statusHalves result

/-- Truthiness of an optional string argument. -/
def truthyStrOpt : Option String → Bool
  | none => false
  | some s => decide (s ≠ "")

/-- Truthiness of an optional integer argument. -/
def truthyIntOpt : Option Int → Bool
  | none => false
  | some n => decide (n ≠ 0)

/-- Parameter assembly of get_swap_info (source lines 43-60): the
    contract_code key is written only when the argument is truthy. -/
def get_swap_info_params (contract_code : Option String) : PyDict :=
  let params : PyDict := []
  if truthyStrOpt contract_code then pySet params "contract_code" (contract_code.getD "")
  else params

/-- Body assembly of get_trigger_openorders (source lines 557-610):
    page_index and page_size are merged only when truthy. -/
def get_trigger_openorders_body (contract_code : String)
    (page_index page_size : Option Int) : List (String × Json) :=
  let body : List (String × Json) := [("contract_code", .str contract_code)]
  let body := if truthyIntOpt page_index then
    pyUpdate body [("page_index", .num (page_index.getD 0))] else body
  if truthyIntOpt page_size then
    pyUpdate body [("page_size", .num (page_size.getD 0))] else body

/-- One conditional of revoke_orders: a truthy ID list (present and
    non-empty) is comma-joined and stored under the given key, anything
    else leaves the body alone. -/
def joinIdsBranch (body : List (String × Json)) (k : String)
    (ids0 : Option (List String)) : List (String × Json) :=
  match ids0 with
  | some ids => if ids ≠ [] then pySet body k (.str (pyJoin "," ids)) else body
  | none => body

/-- Body assembly of revoke_orders (source lines 287-308): the contract
    code, then the order_id conditional, then the client_order_id
    conditional. -/
def revoke_orders_body (contract_code : String)
    (order_ids client_order_ids : Option (List String)) : List (String × Json) :=
  joinIdsBranch (joinIdsBranch [("contract_code", .str contract_code)] "order_id" order_ids)
    "client_order_id" client_order_ids

/-- Name lookup in a Python local scope; a missing name raises NameError. -/
def lookupLocal (env : List (String × Json)) (x : String) : Except PyExc Json :=
  match lookupKey env x with
  | some v => .ok v
  | none => .error (.nameError x)

/-- Body assembly of get_trigger_hisorders (source lines 612-641), with
    the value names of the dict literal resolved against the local scope
    of the function, whose bound names are contract_code, status,
    create_date, page_index and page_size.  The literal at source line 631
    names trade_type, which is not among them, so its evaluation raises
    NameError before any request is issued. -/
def get_trigger_hisorders_body (contract_code status create_date : Json)
    (page_index page_size : Option Json) : Except PyExc (List (String × Json)) := do
  let env : List (String × Json) :=
    [("contract_code", contract_code), ("status", status), ("create_date", create_date),
     ("page_index", page_index.getD .null), ("page_size", page_size.getD .null)]
  let v1 ← lookupLocal env "contract_code"
  let v2 ← lookupLocal env "trade_type"
  let v3 ← lookupLocal env "status"
  let v4 ← lookupLocal env "create_date"
  let body := [("contract_code", v1), ("trade_type", v2), ("status", v3), ("create_date", v4)]
  let body := if jsonTruthy (page_index.getD .null) then
    pyUpdate body [("page_index", page_index.getD .null)] else body
  let body := if jsonTruthy (page_size.getD .null) then
    pyUpdate body [("page_size", page_size.getD .null)] else body
  pure body

/-! Helper lemmas about the dict, store and sorting models. -/

theorem lookupKey_append_right {α : Type} (d : List (String × α)) (k : String) (v : α)
    (h : lookupKey d k = none) : lookupKey (d ++ [(k, v)]) k = some v := by
  induction d with
  | nil => simp [lookupKey]
  | cons p rest ih =>
    obtain ⟨k2, w⟩ := p
    by_cases hk : k2 = k
    · simp [lookupKey, hk] at h
    · simp only [List.cons_append, lookupKey, if_neg hk] at h ⊢
      exact ih h

theorem lookupKey_append_ne {α : Type} (d : List (String × α)) (k k2 : String) (v : α)
    (h : k2 ≠ k) : lookupKey (d ++ [(k, v)]) k2 = lookupKey d k2 := by
  induction d with
  | nil => simp [lookupKey, Ne.symm h]
  | cons p rest ih =>
    obtain ⟨k3, u⟩ := p
    by_cases hk : k3 = k2
    · simp [lookupKey, hk]
    · simp only [List.cons_append, lookupKey, if_neg hk]
      exact ih

theorem lookupKey_replace_self {α : Type} (d : List (String × α)) (k : String) (v w : α)
    (h : lookupKey d k = some w) :
    lookupKey (replaceKey d k v) k = some v := by
  induction d with
  | nil => simp [lookupKey] at h
  | cons p rest ih =>
    obtain ⟨k2, u⟩ := p
    by_cases hk : k2 = k
    · subst hk
      simp [replaceKey, lookupKey]
    · simp [replaceKey, lookupKey, hk] at h ⊢
      exact ih h

theorem lookupKey_replace_ne {α : Type} (d : List (String × α)) (k k2 : String) (v : α)
    (h : k2 ≠ k) :
    lookupKey (replaceKey d k v) k2 = lookupKey d k2 := by
  induction d with
  | nil => simp [replaceKey]
  | cons p rest ih =>
    obtain ⟨k3, u⟩ := p
    by_cases hk : k3 = k
    · subst hk
      simp [replaceKey, lookupKey, Ne.symm h]
      exact ih
    · by_cases hk2 : k3 = k2
      · simp [replaceKey, lookupKey, hk, hk2, h]
      · simp [replaceKey, lookupKey, hk, hk2]
        exact ih

theorem lookupKey_pySet_self {α : Type} (d : List (String × α)) (k : String) (v : α) :
    lookupKey (pySet d k v) k = some v := by
  unfold pySet
  cases h : lookupKey d k with
  | none => exact lookupKey_append_right d k v h
  | some w => exact lookupKey_replace_self d k v w h

theorem lookupKey_pySet_ne {α : Type} (d : List (String × α)) (k k2 : String) (v : α)
    (h : k2 ≠ k) : lookupKey (pySet d k v) k2 = lookupKey d k2 := by
  unfold pySet
  cases hd : lookupKey d k with
  | none => exact lookupKey_append_ne d k k2 v h
  | some w => exact lookupKey_replace_ne d k k2 v h

theorem pyUpdate_nil {α : Type} (d : List (String × α)) : pyUpdate d [] = d := rfl

theorem pyUpdate_cons {α : Type} (d : List (String × α)) (k : String) (v : α)
    (kvs : List (String × α)) :
    pyUpdate d ((k, v) :: kvs) = pyUpdate (pySet d k v) kvs := rfl

theorem storeGet_lt {st : List PyDict} {r : Nat} (h : storeGet st r ≠ []) : r < st.length := by
  induction st generalizing r with
  | nil => simp [storeGet] at h
  | cons a t ih =>
    cases r with
    | zero => simp
    | succ n =>
      simp only [storeGet] at h
      exact Nat.succ_lt_succ (ih h)

theorem storeGet_storeSet_self (st : List PyDict) (r : Nat) (d : PyDict)
    (h : r < st.length) : storeGet (storeSet st r d) r = d := by
  induction st generalizing r with
  | nil => simp at h
  | cons a t ih =>
    cases r with
    | zero => rfl
    | succ n => exact ih n (Nat.lt_of_succ_lt_succ h)

theorem storeGet_storeSet_ne (st : List PyDict) (r r2 : Nat) (d : PyDict)
    (h : r2 ≠ r) : storeGet (storeSet st r d) r2 = storeGet st r2 := by
  induction st generalizing r r2 with
  | nil => rfl
  | cons a t ih =>
    cases r with
    | zero =>
      cases r2 with
      | zero => exact absurd rfl h
      | succ m => rfl
    | succ n =>
      cases r2 with
      | zero => rfl
      | succ m => exact ih n m (fun he => h (congrArg Nat.succ he))

theorem digitChar_mod_isDigit (n : Nat) : (Nat.digitChar (n % 10)).isDigit = true := by
  have hall : ∀ m, m < 10 → (Nat.digitChar m).isDigit = true := by decide
  exact hall _ (Nat.mod_lt _ (by norm_num))

theorem sortParams_perm_eq (P Q : PyDict) (hp : P.Perm Q)
    (hn : (P.map Prod.fst).Nodup) : sortParams P = sortParams Q := by
  have hs1 : List.Sorted keyLE (sortParams P) := List.sorted_insertionSort keyLE P
  have hs2 : List.Sorted keyLE (sortParams Q) := List.sorted_insertionSort keyLE Q
  have hp1 : (sortParams P).Perm P := List.perm_insertionSort keyLE P
  have hp2 : (sortParams Q).Perm Q := List.perm_insertionSort keyLE Q
  have hperm : (sortParams P).Perm (sortParams Q) := hp1.trans (hp.trans hp2.symm)
  have hn1 : ((sortParams P).map Prod.fst).Nodup := ((hp1.map Prod.fst).nodup_iff).mpr hn
  have hnQ : (Q.map Prod.fst).Nodup := ((hp.map Prod.fst).nodup_iff).mp hn
  have hn2 : ((sortParams Q).map Prod.fst).Nodup := ((hp2.map Prod.fst).nodup_iff).mpr hnQ
  have hlt1 : List.Sorted keyLT (sortParams P) := by
    have hne : List.Pairwise (fun a b : String × String => a.1 ≠ b.1) (sortParams P) :=
      (List.pairwise_map).mp hn1
    exact hs1.imp₂ (fun a b hle hne2 => lt_of_le_of_ne hle hne2) hne
  have hlt2 : List.Sorted keyLT (sortParams Q) := by
    have hne : List.Pairwise (fun a b : String × String => a.1 ≠ b.1) (sortParams Q) :=
      (List.pairwise_map).mp hn2
    exact hs2.imp₂ (fun a b hle hne2 => lt_of_le_of_ne hle hne2) hne
  exact List.eq_of_perm_of_sorted hperm hlt1 hlt2

/-! Demo values used by concrete witnesses. -/

/-- Demo client configuration. -/
def cDemo : HuobiClient :=
  { host := "https://api.hbdm.com", access_key := "demo-access", secret_key := "demo-secret" }

/-- Concrete stand-in for the HMAC-SHA256 digest primitive: it returns the
    message bytes, which keeps distinct payloads distinct. -/
def hbId : List Nat → List Nat → List Nat := fun _ msg => msg

/-- Demo UTC instant. -/
def tDemo : UtcTime :=
  { year := 2024, month := 1, day := 2, hour := 3, minute := 4, second := 5 }

/-- The signing payload as claim C1 words it, with the method uppercased;
    the remaining three lines follow the spec description. -/
def specPayloadC1 (c : HuobiClient) (method : String) (params : PyDict)
    (request_path : String) : String :=
  pyJoin "\n" [upperStr method, signHost c request_path, signPath request_path,
    urlencode (sortParams params)]

/-! Claim theorems. -/

/-- Claim C1, counterexample: generate_signature does not uppercase the
    method.  At the lowercase method get, with a transparent digest
    primitive, the signature the code computes differs from the value the
    claim prescribes, the base64 digest of the payload whose first line is
    the uppercased method. -/
theorem C1_counterexample :
    generate_signature cDemo hbId "get" [] "/p"
      ≠ b64encode (hbId (utf8Encode cDemo.secret_key)
          (utf8Encode (specPayloadC1 cDemo "get" [] "/p"))) := by
  decide

/-- Claim C1 (amended): generate_signature base64-encodes the digest
    produced by HMAC-SHA256 under the UTF-8 secret key over the UTF-8
    payload of four newline-joined lines: the method exactly as given (the
    call sites pass it already uppercase), the lowercased host, the
    canonical path, and the form-encoded key-sorted query string. -/
theorem C1_signature_pipeline :
    ∀ (c : HuobiClient) (hb : List Nat → List Nat → List Nat) (method : String)
      (params : PyDict) (request_path : String),
      generate_signature c hb method params request_path
        = b64encode (hb (utf8Encode c.secret_key)
            (utf8Encode (signPayload c method params request_path))) :=
  fun _ _ _ _ _ => rfl

/-- Claim C5: generate_signature is deterministic in (method, params,
    path), and permuting the insertion order of a parameter mapping with
    distinct keys leaves the signature unchanged. -/
theorem C5_deterministic_order_invariant :
    ∀ (c : HuobiClient) (hb : List Nat → List Nat → List Nat)
      (method request_path : String) (P Q : PyDict),
      P.Perm Q → (P.map Prod.fst).Nodup →
      generate_signature c hb method P request_path
          = generate_signature c hb method P request_path
      ∧ generate_signature c hb method P request_path
          = generate_signature c hb method Q request_path := by
  intro c hb method rp P Q hp hn
  refine ⟨rfl, ?_⟩
  have hs := sortParams_perm_eq P Q hp hn
  simp only [generate_signature, hs]

/-- Witness for C5 at a concrete two-entry mapping and its swap. -/
theorem C5_witness :
    generate_signature cDemo hbId "GET" [("b", "2"), ("a", "1")] "/p"
      = generate_signature cDemo hbId "GET" [("a", "1"), ("b", "2")] "/p" :=
  (C5_deterministic_order_invariant cDemo hbId "GET" "/p"
    [("b", "2"), ("a", "1")] [("a", "1"), ("b", "2")] (by decide) (by decide)).2

/-- Lookup of a key other than page_size is unchanged by the page_size
    branch of get_trigger_openorders. -/
theorem lookup_page_size_branch (body : List (String × Json)) (ps : Option Int)
    (k : String) (h : k ≠ "page_size") :
    lookupKey (if truthyIntOpt ps then pyUpdate body [("page_size", .num (ps.getD 0))]
      else body) k = lookupKey body k := by
  by_cases hps : truthyIntOpt ps
  · rw [if_pos hps]
    exact lookupKey_pySet_ne body "page_size" k (.num (ps.getD 0)) h
  · rw [if_neg hps]

/-- Claim C7, counterexample: get_trigger_openorders given the provided
    value 0 for page_index emits no page_index key at all, because the
    assembly tests truthiness rather than presence. -/
theorem C7_counterexample :
    get_trigger_openorders_body "BTC-USDT" (some 0) none
      = [("contract_code", .str "BTC-USDT")]
    ∧ lookupKey (get_trigger_openorders_body "BTC-USDT" (some 0) none) "page_index"
      = none :=
  ⟨rfl, rfl⟩

/-- Claim C7 (amended): an optional argument provided with a truthy value
    appears in the outbound mapping with that value; an argument that is
    absent, or provided with a falsy value such as 0 or the empty string,
    produces no key at all.  In particular get_swap_info with no
    contract_code yields a mapping with no contract_code key. -/
theorem C7_truthy_optionals :
    get_swap_info_params none = []
    ∧ get_swap_info_params (some "") = []
    ∧ (∀ cc : String, cc ≠ "" → get_swap_info_params (some cc) = [("contract_code", cc)])
    ∧ (∀ (cc : String) (ps : Option Int) (n : Int), n ≠ 0 →
        lookupKey (get_trigger_openorders_body cc (some n) ps) "page_index"
          = some (.num n))
    ∧ (∀ (cc : String) (ps : Option Int),
        lookupKey (get_trigger_openorders_body cc none ps) "page_index" = none)
    ∧ (∀ (cc : String) (ps : Option Int),
        lookupKey (get_trigger_openorders_body cc (some 0) ps) "page_index" = none) := by
  refine ⟨rfl, rfl, ?_, ?_, ?_, ?_⟩
  · intro cc h
    unfold get_swap_info_params
    rw [if_pos (by simp [truthyStrOpt, h])]
    rfl
  · intro cc ps n h
    unfold get_trigger_openorders_body
    rw [lookup_page_size_branch _ ps "page_index" (by decide)]
    rw [if_pos (by simp [truthyIntOpt, h])]
    exact lookupKey_pySet_self [("contract_code", Json.str cc)] "page_index"
      (Json.num ((some n).getD 0))
  · intro cc ps
    unfold get_trigger_openorders_body
    rw [lookup_page_size_branch _ ps "page_index" (by decide)]
    rw [if_neg (by simp [truthyIntOpt])]
    rfl
  · intro cc ps
    unfold get_trigger_openorders_body
    rw [lookup_page_size_branch _ ps "page_index" (by decide)]
    rw [if_neg (by simp [truthyIntOpt])]
    rfl

/-- Witness for C7 at concrete inputs exercising each hypothesis. -/
theorem C7_witness :
    get_swap_info_params (some "BTC-USDT") = [("contract_code", "BTC-USDT")]
    ∧ lookupKey (get_trigger_openorders_body "BTC-USDT" (some 2) (some 50)) "page_index"
      = some (.num 2) :=
  ⟨C7_truthy_optionals.2.2.1 "BTC-USDT" (by decide),
   C7_truthy_optionals.2.2.2.1 "BTC-USDT" (some 50) 2 (by decide)⟩

/-- Lookup of a key other than the branch key is unchanged by an ID-list
    conditional. -/
theorem lookupKey_joinIdsBranch_ne (body : List (String × Json)) (k k2 : String)
    (ids0 : Option (List String)) (h : k2 ≠ k) :
    lookupKey (joinIdsBranch body k ids0) k2 = lookupKey body k2 := by
  cases ids0 with
  | none => rfl
  | some ids =>
    simp only [joinIdsBranch]
    by_cases h2 : ids = []
    · rw [if_neg (fun hh => hh h2)]
    · rw [if_pos h2]
      exact lookupKey_pySet_ne body k k2 (.str (pyJoin "," ids)) h

/-- A truthy ID list ends up comma-joined under the branch key. -/
theorem lookupKey_joinIdsBranch_self (body : List (String × Json)) (k : String)
    (ids : List String) (h : ids ≠ []) :
    lookupKey (joinIdsBranch body k (some ids)) k = some (.str (pyJoin "," ids)) := by
  simp only [joinIdsBranch]
  rw [if_pos h]
  exact lookupKey_pySet_self body k (.str (pyJoin "," ids))

/-- Claim C8: revoke_orders serializes a non-empty order ID list as one
    comma-joined string under order_id, and a non-empty client order ID
    list likewise under client_order_id; the stored values are strings,
    not lists. -/
theorem C8_comma_join :
    (∀ (cc : String) (ids : List String) (cids : Option (List String)), ids ≠ [] →
      lookupKey (revoke_orders_body cc (some ids) cids) "order_id"
        = some (.str (pyJoin "," ids)))
    ∧ (∀ (cc : String) (oids : Option (List String)) (ids : List String), ids ≠ [] →
      lookupKey (revoke_orders_body cc oids (some ids)) "client_order_id"
        = some (.str (pyJoin "," ids))) := by
  constructor
  · intro cc ids cids hne
    unfold revoke_orders_body
    rw [lookupKey_joinIdsBranch_ne _ "client_order_id" "order_id" cids (by decide)]
    exact lookupKey_joinIdsBranch_self [("contract_code", .str cc)] "order_id" ids hne
  · intro cc oids ids hne
    unfold revoke_orders_body
    exact lookupKey_joinIdsBranch_self _ "client_order_id" ids hne

/-- Witness for C8 at the spec scenario list 1, 2, 3. -/
theorem C8_witness :
    lookupKey (revoke_orders_body "BTC-USDT" (some ["1", "2", "3"]) none) "order_id"
      = some (.str "1,2,3")
    ∧ lookupKey (revoke_orders_body "BTC-USDT" none (some ["7", "8"])) "client_order_id"
      = some (.str "7,8") :=
  ⟨C8_comma_join.1 "BTC-USDT" ["1", "2", "3"] none (by decide),
   C8_comma_join.2 "BTC-USDT" none ["7", "8"] (by decide)⟩

/-- Claim C9: for every method other than the exact string GET the
    dispatcher invokes the transport with the literal method POST, while
    the auth branch still computes the signature over the original method
    argument. -/
theorem C9_non_get_posts :
    ∀ (c : HuobiClient) (hb : List Nat → List Nat → List Nat) (t : UtcTime)
      (ua method uri : String) (params : Option PyDict)
      (body : Option (List (String × Json))) (headers : Option PyDict) (auth : Bool),
      method ≠ "GET" →
      (requestOutbound c hb t ua method uri params body headers auth).fetchMethod = "POST"
      ∧ (requestOutbound c hb t ua method uri params body headers true).params
          = some (authParams c hb (strftimeTs t) method uri (params.getD [])) := by
  intro c hb t ua method uri params body headers auth h
  constructor
  · simp [requestOutbound, h]
  · simp [requestOutbound, h]

/-- Witness for C9 at the methods DELETE and lowercase get. -/
theorem C9_witness :
    (requestOutbound cDemo hbId tDemo "ua" "DELETE" "/p" none none none false).fetchMethod
      = "POST"
    ∧ (requestOutbound cDemo hbId tDemo "ua" "get" "/p" none none none true).params
      = some (authParams cDemo hbId (strftimeTs tDemo) "get" "/p" []) :=
  ⟨(C9_non_get_posts cDemo hbId tDemo "ua" "DELETE" "/p" none none none false
      (by decide)).1,
   (C9_non_get_posts cDemo hbId tDemo "ua" "get" "/p" none none none true
      (by decide)).2⟩

/-- Appending form of dict assignment for a fresh key. -/
theorem pySet_append_of_none {α : Type} {d : List (String × α)} {k : String} (v : α)
    (h : lookupKey d k = none) : pySet d k v = d ++ [(k, v)] := by
  unfold pySet
  rw [h]

/-- The four fixed fields the auth branch merges before signing. -/
def authFields (c : HuobiClient) (ts : String) : PyDict :=
  [("AccessKeyId", c.access_key), ("SignatureMethod", "HmacSHA256"),
   ("SignatureVersion", "2"), ("Timestamp", ts)]

/-- Claim C2: with auth true the dispatcher merges the access key under
    AccessKeyId, HmacSHA256 under SignatureMethod, 2 under
    SignatureVersion and a UTC timestamp of shape YYYY-MM-DDTHH:MM:SS (19
    characters of digits, dashes, T and colons only: no timezone suffix,
    no fractional seconds) into the mapping, computes the signature over
    the merged mapping without the signature itself, together with the
    method and the path or URL, and appends it last under Signature. -/
theorem C2_auth_fields_and_signature :
    ∀ (c : HuobiClient) (hb : List Nat → List Nat → List Nat) (t : UtcTime)
      (method uri : String) (params : PyDict),
      lookupKey params "Signature" = none →
      authParams c hb (strftimeTs t) method uri params
        = pyUpdate params (authFields c (strftimeTs t))
          ++ [("Signature", generate_signature c hb method
                (pyUpdate params (authFields c (strftimeTs t))) uri)]
      ∧ lookupKey (pyUpdate params (authFields c (strftimeTs t))) "AccessKeyId"
        = some c.access_key
      ∧ lookupKey (pyUpdate params (authFields c (strftimeTs t))) "SignatureMethod"
        = some "HmacSHA256"
      ∧ lookupKey (pyUpdate params (authFields c (strftimeTs t))) "SignatureVersion"
        = some "2"
      ∧ lookupKey (pyUpdate params (authFields c (strftimeTs t))) "Timestamp"
        = some (strftimeTs t)
      ∧ lookupKey (pyUpdate params (authFields c (strftimeTs t))) "Signature" = none
      ∧ (strftimeTs t).length = 19
      ∧ (strftimeTs t).data.all
          (fun ch => ch.isDigit || ch == '-' || ch == 'T' || ch == ':') = true
      ∧ (∀ (ua : String) (body : Option (List (String × Json))) (headers : Option PyDict),
          (requestOutbound c hb t ua method uri (some params) body headers true).params
            = some (authParams c hb (strftimeTs t) method uri params)) := by
  intro c hb t method uri params hs
  have hSigNone : lookupKey (pyUpdate params (authFields c (strftimeTs t))) "Signature"
      = none := by
    simp only [authFields, pyUpdate_cons, pyUpdate_nil]
    rw [lookupKey_pySet_ne _ _ _ _ (by decide), lookupKey_pySet_ne _ _ _ _ (by decide),
      lookupKey_pySet_ne _ _ _ _ (by decide), lookupKey_pySet_ne _ _ _ _ (by decide)]
    exact hs
  refine ⟨?_, ?_, ?_, ?_, ?_, hSigNone, ?_, ?_, ?_⟩
  · exact pySet_append_of_none _ hSigNone
  · simp only [authFields, pyUpdate_cons, pyUpdate_nil]
    rw [lookupKey_pySet_ne _ _ _ _ (by decide), lookupKey_pySet_ne _ _ _ _ (by decide),
      lookupKey_pySet_ne _ _ _ _ (by decide)]
    exact lookupKey_pySet_self params "AccessKeyId" c.access_key
  · simp only [authFields, pyUpdate_cons, pyUpdate_nil]
    rw [lookupKey_pySet_ne _ _ _ _ (by decide), lookupKey_pySet_ne _ _ _ _ (by decide)]
    exact lookupKey_pySet_self _ "SignatureMethod" "HmacSHA256"
  · simp only [authFields, pyUpdate_cons, pyUpdate_nil]
    rw [lookupKey_pySet_ne _ _ _ _ (by decide)]
    exact lookupKey_pySet_self _ "SignatureVersion" "2"
  · simp only [authFields, pyUpdate_cons, pyUpdate_nil]
    exact lookupKey_pySet_self _ "Timestamp" (strftimeTs t)
  · rfl
  · have hd : (strftimeTs t).data
        = pad4l t.year ++ '-' :: pad2l t.month ++ '-' :: pad2l t.day
          ++ 'T' :: pad2l t.hour ++ ':' :: pad2l t.minute ++ ':' :: pad2l t.second := rfl
    rw [hd]
    simp [pad4l, pad2l, digitChar_mod_isDigit]
  · intro ua body headers
    by_cases hm : method = "GET" <;> simp [requestOutbound, hm]

/-- Witness for C2 at a concrete client, instant and mapping. -/
theorem C2_witness :
    authParams cDemo hbId (strftimeTs tDemo) "POST" "/p" [("contract_code", "BTC-USDT")]
      = pyUpdate [("contract_code", "BTC-USDT")] (authFields cDemo (strftimeTs tDemo))
        ++ [("Signature", generate_signature cDemo hbId "POST"
              (pyUpdate [("contract_code", "BTC-USDT")]
                (authFields cDemo (strftimeTs tDemo))) "/p")]
    ∧ (strftimeTs tDemo).length = 19 :=
  have h := C2_auth_fields_and_signature cDemo hbId tDemo "POST" "/p"
    [("contract_code", "BTC-USDT")] rfl
  ⟨h.1, h.2.2.2.2.2.2.1⟩

/-- Claim C3: whenever the normalization returns, exactly one half of the
    pair is populated; a truthy transport error yields the pair of nothing
    and the error; a parsed mapping whose status is not the string ok
    yields the pair of nothing and the payload without raising; a mapping
    with status ok yields the pair of the payload and nothing. -/
theorem C3_result_pair :
    (∀ (s : TransportBody) (e : Option Json) (r : Option Json × Option Json),
      normalizeResponse s e = .ok r →
      (r.1 = none ∧ r.2 ≠ none) ∨ (r.1 ≠ none ∧ r.2 = none))
    ∧ (∀ (s : TransportBody) (e : Json), jsonTruthy e = true →
        normalizeResponse s (some e) = .ok (none, some e))
    ∧ (∀ (kvs : List (String × Json)) (e : Option Json), errTruthy e = false →
        pyEqStr (pyDictGet kvs "status") "ok" = false →
        normalizeResponse (.dict kvs) e = .ok (none, some (.obj kvs)))
    ∧ (∀ (kvs : List (String × Json)) (e : Option Json), errTruthy e = false →
        pyEqStr (pyDictGet kvs "status") "ok" = true →
        normalizeResponse (.dict kvs) e = .ok (some (.obj kvs), none)) := by
  refine ⟨?_, ?_, ?_, ?_⟩
  · intro s e r h
    unfold normalizeResponse at h
    by_cases he : errTruthy e
    · rw [if_pos he] at h
      cases e with
      | none => simp [errTruthy] at he
      | some ev =>
        injection h with h2
        subst h2
        exact Or.inl ⟨rfl, by simp⟩
    · rw [if_neg he] at h
      cases hp : parseSuccess s with
      | error pe =>
        rw [hp] at h
        exact absurd h (by simp)
      | ok pj =>
        rw [hp] at h
        cases pj with
        | obj kvs =>
          simp only [statusHalves] at h
          by_cases hok : pyEqStr (pyDictGet kvs "status") "ok" = true
          · rw [if_pos hok] at h
            injection h with h2
            subst h2
            exact Or.inr ⟨by simp, rfl⟩
          · rw [if_neg hok] at h
            injection h with h2
            subst h2
            exact Or.inl ⟨rfl, by simp⟩
        | null => exact absurd h (by simp [statusHalves])
        | bool b => exact absurd h (by simp [statusHalves])
        | num n => exact absurd h (by simp [statusHalves])
        | str s2 => exact absurd h (by simp [statusHalves])
        | arr xs => exact absurd h (by simp [statusHalves])
  · intro s e he
    simp [normalizeResponse, errTruthy, he]
  · intro kvs e he hst
    simp [normalizeResponse, he, parseSuccess, statusHalves, hst]
  · intro kvs e he hst
    simp [normalizeResponse, he, parseSuccess, statusHalves, hst]

/-- Error envelope from the spec scenario. -/
def errEnvelope : List (String × Json) :=
  [("status", .str "error"), ("err_code", .num 1061),
   ("err_msg", .str "order price exceeds limit")]

/-- Success envelope from the spec scenario. -/
def okEnvelope : List (String × Json) :=
  [("status", .str "ok"), ("data", .obj [("x", .num 1)])]

/-- Witness for C3 at the two spec envelopes and a transport error. -/
theorem C3_witness :
    normalizeResponse (.dict errEnvelope) none = .ok (none, some (.obj errEnvelope))
    ∧ normalizeResponse (.dict okEnvelope) none = .ok (some (.obj okEnvelope), none)
    ∧ normalizeResponse .pyNone (some (.str "HTTP 500")) = .ok (none, some (.str "HTTP 500"))
    ∧ ((none = (none : Option Json) ∧ some (Json.obj errEnvelope) ≠ none)
        ∨ ((none : Option Json) ≠ none ∧ some (Json.obj errEnvelope) = none)) :=
  ⟨C3_result_pair.2.2.1 errEnvelope none rfl rfl,
   C3_result_pair.2.2.2 okEnvelope none rfl rfl,
   C3_result_pair.2.1 .pyNone (.str "HTTP 500") rfl,
   C3_result_pair.1 (.dict errEnvelope) none (none, some (.obj errEnvelope))
     (C3_result_pair.2.2.1 errEnvelope none rfl rfl)⟩

/-- Claim C4 is contradicted by the code: the body literal of
    get_trigger_hisorders names trade_type, which is bound neither as a
    parameter nor locally, so every call raises NameError instead of
    reaching the dispatcher and returning the result pair. -/
theorem C4_trigger_hisorders_raises :
    ∀ (contract_code status create_date : Json) (page_index page_size : Option Json),
      get_trigger_hisorders_body contract_code status create_date page_index page_size
        = .error (.nameError "trade_type") := by
  intro a b c d e
  rfl

/-- Claim C6, counterexample: the success body 123 parses as JSON, yet the
    normalization raises AttributeError when it calls get on the resulting
    integer, so JSON-parse failure is not the only condition that
    propagates. -/
theorem C6_counterexample :
    json_loads "123" = .ok (.num 123)
    ∧ normalizeResponse (.raw "123") none
      = .error (.attributeError "object has no attribute get") :=
  ⟨rfl, rfl⟩

/-- Claim C6 (amended): the dispatcher never raises for a truthy transport
    error or for a payload that is or parses to a mapping; an unhandled
    failure propagates exactly when the success body is a string that
    fails to parse as JSON (the decode error), parses to a non-mapping
    value (AttributeError from result.get), or is absent (TypeError from
    json.loads). -/
theorem C6_raise_conditions :
    (∀ (s : TransportBody) (e : Json), jsonTruthy e = true →
      normalizeResponse s (some e) = .ok (none, some e))
    ∧ (∀ (kvs : List (String × Json)) (e : Option Json), errTruthy e = false →
        ∃ r, normalizeResponse (.dict kvs) e = .ok r)
    ∧ (∀ (s : String) (kvs : List (String × Json)) (e : Option Json), errTruthy e = false →
        json_loads s = .ok (.obj kvs) → ∃ r, normalizeResponse (.raw s) e = .ok r)
    ∧ (∀ (s : String) (m : PyExc) (e : Option Json), errTruthy e = false →
        json_loads s = .error m → normalizeResponse (.raw s) e = .error m)
    ∧ (∀ (s : String) (j : Json) (e : Option Json), errTruthy e = false →
        json_loads s = .ok j → (∀ kvs2, j ≠ .obj kvs2) →
        normalizeResponse (.raw s) e = .error (.attributeError "object has no attribute get"))
    ∧ (∀ e : Option Json, errTruthy e = false →
        normalizeResponse .pyNone e
          = .error (.typeError "the JSON object must be str, bytes or bytearray, not NoneType")) := by
  refine ⟨?_, ?_, ?_, ?_, ?_, ?_⟩
  · intro s e he
    simp [normalizeResponse, errTruthy, he]
  · intro kvs e he
    by_cases hok : pyEqStr (pyDictGet kvs "status") "ok" = true
    · exact ⟨(some (.obj kvs), none), by simp [normalizeResponse, he, parseSuccess, statusHalves, hok]⟩
    · exact ⟨(none, some (.obj kvs)), by simp [normalizeResponse, he, parseSuccess, statusHalves, hok]⟩
  · intro s kvs e he hj
    by_cases hok : pyEqStr (pyDictGet kvs "status") "ok" = true
    · exact ⟨(some (.obj kvs), none), by simp [normalizeResponse, he, parseSuccess, hj, statusHalves, hok]⟩
    · exact ⟨(none, some (.obj kvs)), by simp [normalizeResponse, he, parseSuccess, hj, statusHalves, hok]⟩
  · intro s m e he hj
    simp [normalizeResponse, he, parseSuccess, hj]
  · intro s j e he hj hno
    cases j with
    | obj kvs => exact absurd rfl (hno kvs)
    | null => simp [normalizeResponse, he, parseSuccess, hj, statusHalves]
    | bool b => simp [normalizeResponse, he, parseSuccess, hj, statusHalves]
    | num n => simp [normalizeResponse, he, parseSuccess, hj, statusHalves]
    | str s2 => simp [normalizeResponse, he, parseSuccess, hj, statusHalves]
    | arr xs => simp [normalizeResponse, he, parseSuccess, hj, statusHalves]
  · intro e he
    simp [normalizeResponse, he, parseSuccess]

/-- Witness for C6 exercising every branch of the amended statement at
    concrete bodies. -/
theorem C6_witness :
    (∃ r, normalizeResponse (.raw "\x7b\"status\": \"ok\"\x7d") none = .ok r)
    ∧ normalizeResponse (.raw "not json") none
      = .error (.jsonDecodeError "Expecting value")
    ∧ normalizeResponse (.raw "[1, 2]") none
      = .error (.attributeError "object has no attribute get")
    ∧ normalizeResponse .pyNone (some (.num 502)) = .ok (none, some (.num 502))
    ∧ (∃ r, normalizeResponse (.dict [("status", .str "error")]) none = .ok r)
    ∧ normalizeResponse .pyNone none
      = .error (.typeError "the JSON object must be str, bytes or bytearray, not NoneType") :=
  ⟨C6_raise_conditions.2.2.1 "\x7b\"status\": \"ok\"\x7d" [("status", .str "ok")] none rfl rfl,
   C6_raise_conditions.2.2.2.1 "not json" (.jsonDecodeError "Expecting value") none rfl rfl,
   C6_raise_conditions.2.2.2.2.1 "[1, 2]" (.arr [.num 1, .num 2]) none rfl rfl
     (fun _ h => Json.noConfusion h),
   C6_raise_conditions.1 .pyNone (.num 502) rfl,
   C6_raise_conditions.2.1 [("status", .str "error")] none rfl,
   C6_raise_conditions.2.2.2.2.2 none rfl⟩

/-- Per-key presence of the credential, timestamp and signature fields in
    the merged mapping the auth branch produces. -/
theorem authParams_lookups (c : HuobiClient) (hb : List Nat → List Nat → List Nat)
    (ts method uri : String) (params : PyDict) :
    (lookupKey (authParams c hb ts method uri params) "AccessKeyId").isSome = true
    ∧ (lookupKey (authParams c hb ts method uri params) "SignatureMethod").isSome = true
    ∧ (lookupKey (authParams c hb ts method uri params) "SignatureVersion").isSome = true
    ∧ (lookupKey (authParams c hb ts method uri params) "Timestamp").isSome = true
    ∧ (lookupKey (authParams c hb ts method uri params) "Signature").isSome = true := by
  unfold authParams
  simp only [pyUpdate_cons, pyUpdate_nil]
  refine ⟨?_, ?_, ?_, ?_, ?_⟩
  · rw [lookupKey_pySet_ne _ _ _ _ (by decide), lookupKey_pySet_ne _ _ _ _ (by decide),
      lookupKey_pySet_ne _ _ _ _ (by decide), lookupKey_pySet_ne _ _ _ _ (by decide),
      lookupKey_pySet_self]
    rfl
  · rw [lookupKey_pySet_ne _ _ _ _ (by decide), lookupKey_pySet_ne _ _ _ _ (by decide),
      lookupKey_pySet_ne _ _ _ _ (by decide), lookupKey_pySet_self]
    rfl
  · rw [lookupKey_pySet_ne _ _ _ _ (by decide), lookupKey_pySet_ne _ _ _ _ (by decide),
      lookupKey_pySet_self]
    rfl
  · rw [lookupKey_pySet_ne _ _ _ _ (by decide), lookupKey_pySet_self]
    rfl
  · rw [lookupKey_pySet_self]
    rfl

/-- Claim C10: with auth true and a non-empty caller-supplied mapping, the
    auth branch mutates that very dict cell in place: afterwards the cell
    the caller references holds the merged mapping with the credential,
    timestamp and signature keys, every other cell is untouched, and the
    client configuration record is unchanged. -/
theorem C10_inplace_update :
    ∀ (c : HuobiClient) (hb : List Nat → List Nat → List Nat) (ts method uri : String)
      (store : List PyDict) (r : Nat) (P : PyDict),
      storeGet store r = P → P ≠ [] →
      (requestAuthHeap c hb ts method uri store (some r)).1 = c
      ∧ (requestAuthHeap c hb ts method uri store (some r)).2.2 = r
      ∧ storeGet (requestAuthHeap c hb ts method uri store (some r)).2.1 r
          = authParams c hb ts method uri P
      ∧ (lookupKey (storeGet (requestAuthHeap c hb ts method uri store (some r)).2.1 r)
          "AccessKeyId").isSome = true
      ∧ (lookupKey (storeGet (requestAuthHeap c hb ts method uri store (some r)).2.1 r)
          "SignatureMethod").isSome = true
      ∧ (lookupKey (storeGet (requestAuthHeap c hb ts method uri store (some r)).2.1 r)
          "SignatureVersion").isSome = true
      ∧ (lookupKey (storeGet (requestAuthHeap c hb ts method uri store (some r)).2.1 r)
          "Timestamp").isSome = true
      ∧ (lookupKey (storeGet (requestAuthHeap c hb ts method uri store (some r)).2.1 r)
          "Signature").isSome = true
      ∧ (∀ r2, r2 ≠ r →
          storeGet (requestAuthHeap c hb ts method uri store (some r)).2.1 r2
            = storeGet store r2) := by
  intro c hb ts method uri store r P hP hne
  have hr : r < store.length := storeGet_lt (by rw [hP]; exact hne)
  have halloc : requestAuthHeap c hb ts method uri store (some r)
      = (c, storeSet store r (authParams c hb ts method uri P), r) := by
    simp only [requestAuthHeap]
    rw [hP, if_pos hne, hP]
  rw [halloc]
  have hcell : storeGet (storeSet store r (authParams c hb ts method uri P)) r
      = authParams c hb ts method uri P := storeGet_storeSet_self store r _ hr
  refine ⟨rfl, rfl, hcell, ?_, ?_, ?_, ?_, ?_, ?_⟩
  · rw [hcell]; exact (authParams_lookups c hb ts method uri P).1
  · rw [hcell]; exact (authParams_lookups c hb ts method uri P).2.1
  · rw [hcell]; exact (authParams_lookups c hb ts method uri P).2.2.1
  · rw [hcell]; exact (authParams_lookups c hb ts method uri P).2.2.2.1
  · rw [hcell]; exact (authParams_lookups c hb ts method uri P).2.2.2.2
  · intro r2 h2
    exact storeGet_storeSet_ne store r r2 _ h2

/-- Witness for C10 at a one-cell store holding a contract-code mapping. -/
theorem C10_witness :
    (requestAuthHeap cDemo hbId "2024-01-02T03:04:05" "POST" "/p"
        [[("contract_code", "BTC-USDT")]] (some 0)).1 = cDemo
    ∧ storeGet (requestAuthHeap cDemo hbId "2024-01-02T03:04:05" "POST" "/p"
        [[("contract_code", "BTC-USDT")]] (some 0)).2.1 0
      = authParams cDemo hbId "2024-01-02T03:04:05" "POST" "/p"
          [("contract_code", "BTC-USDT")] :=
  have h := C10_inplace_update cDemo hbId "2024-01-02T03:04:05" "POST" "/p"
    [[("contract_code", "BTC-USDT")]] 0 [("contract_code", "BTC-USDT")] rfl (by decide)
  ⟨h.1, h.2.2.1⟩

end HuobiSwap
